import Mathlib

/-!
Shallow embedding of the `yadwh` Discord-webhook crate: the limit table,
the `Embed` and `MessageBuilder` models with their `validate` routines, the
transport client's response classification, and the message/webhook
operations built on top of them.  Rust `String::len` (UTF-8 byte length) is
modelled by `String.utf8ByteSize`; fallible Rust functions returning
`Result<T, WebhookError>` are modelled by `WhResult`.
-/

/-- `WebhookError` from `client.rs`: the error taxonomy of the crate. -/
inductive WebhookError where
  /-- Non-200 status obtained from the API. -/
  | BadStatus : String → WebhookError
  /-- 204 response received from the API. -/
  | NoContent : WebhookError
  /-- Unknown error, details provided. -/
  | Unknown : String → WebhookError
  /-- Unable to parse an object received from the API. -/
  | BadParse : String → WebhookError
  /-- Content or Embed character count is too large: name, size, max. -/
  | TooBig : String → Nat → Nat → WebhookError
deriving DecidableEq

/-- `Result<T, WebhookError>` from `client.rs`. -/
inductive WhResult (α : Type) where
  | ok (value : α)
  | err (error : WebhookError)
deriving DecidableEq

namespace Limit

/-- Maximum amount of embeds allowed on a single message. -/
def EMBEDS : Nat := 10

/-- Maximum amount of fields on a single embed. -/
def FIELDS : Nat := 25

/-- Maximum length of a username override for a message. -/
def USERNAME : Nat := 80

/-- Maximum length of content for a message. -/
def CONTENT : Nat := 2000

/-- Maximum length of the author name on an embed. -/
def AUTHOR_NAME : Nat := 256

/-- Maximum length of the title on an embed. -/
def TITLE : Nat := 256

/-- Maximum length of the description on an embed. -/
def DESCRIPTION : Nat := 4096

/-- Maximum length of field name on an embed. -/
def FIELD_NAME : Nat := 256

/-- Maximum length of field value on an embed. -/
def FIELD_VALUE : Nat := 1024

/-- Maximum length of footer text on an embed. -/
def FOOTER_TEXT : Nat := 2048

/-- Maximum total characters for an embed. -/
def EMBED_TOTAL : Nat := 6000

end Limit

/-- `EmbedAuthor` from `embed.rs`. -/
structure EmbedAuthor where
  name : String
  url : Option String
  icon_url : Option String
  proxy_icon_url : Option String
deriving DecidableEq

/-- `EmbedField` from `embed.rs`. -/
structure EmbedField where
  name : String
  value : String
  inline : Option Bool
deriving DecidableEq

/-- `EmbedFooter` from `embed.rs`. -/
structure EmbedFooter where
  text : String
  icon_url : Option String
  proxy_icon_url : Option String
deriving DecidableEq

/-- `EmbedMedia` from `embed.rs` (image / thumbnail / video). -/
structure EmbedMedia where
  url : Option String
  proxy_url : Option String
  height : Option Nat
  width : Option Nat
deriving DecidableEq

/-- `EmbedProvider` from `embed.rs`. -/
structure EmbedProvider where
  name : Option String
  url : Option String
deriving DecidableEq

/-- `Embed` from `embed.rs`. -/
structure Embed where
  author : Option EmbedAuthor
  title : Option String
  description : Option String
  url : Option String
  timestamp : Option String
  color : Option Nat
  fields : List EmbedField
  footer : Option EmbedFooter
  image : Option EmbedMedia
  thumbnail : Option EmbedMedia
  video : Option EmbedMedia
  provider : Option EmbedProvider
deriving DecidableEq

/-- `Embed::new` from `embed.rs`: every optional field unset, no fields. -/
def Embed.new : Embed where
  author := none
  title := none
  description := none
  url := none
  timestamp := none
  color := none
  fields := []
  footer := none
  image := none
  thumbnail := none
  video := none
  provider := none

/-- Length used by `Embed::validate` for the author component:
`self.author`'s `name.len()` when present, `0` otherwise. -/
def Embed.authorLen (e : Embed) : Nat :=
  match e.author with
  | some a => a.name.utf8ByteSize
  | none => 0

/-- Length used by `Embed::validate` for the title component. -/
def Embed.titleLen (e : Embed) : Nat :=
  match e.title with
  | some t => t.utf8ByteSize
  | none => 0

/-- Length used by `Embed::validate` for the description component. -/
def Embed.descriptionLen (e : Embed) : Nat :=
  match e.description with
  | some d => d.utf8ByteSize
  | none => 0

/-- Length used by `Embed::validate` for the footer component:
`self.footer`'s `text.len()` when present, `0` otherwise. -/
def Embed.footerLen (e : Embed) : Nat :=
  match e.footer with
  | some f => f.text.utf8ByteSize
  | none => 0

/-- The field loop of `Embed::validate`: for each field in order, check the
name against `Limit.FIELD_NAME` and the value against `Limit.FIELD_VALUE`,
returning the first `TooBig` error, otherwise the accumulated total. -/
def Embed.validateFields : List EmbedField → Nat → WhResult Nat
  | [], total => .ok total
  | f :: rest, total =>
    let name := f.name.utf8ByteSize
    if name > Limit.FIELD_NAME then
      .err (.TooBig "field name" name Limit.FIELD_NAME)
    else
      let value := f.value.utf8ByteSize
      if value > Limit.FIELD_VALUE then
        .err (.TooBig "field value" value Limit.FIELD_VALUE)
      else
        Embed.validateFields rest (total + name + value)

/-- `Embed::validate` from `embed.rs`: checks author, title, description,
footer, then every field in order, each against its individual ceiling with
an early `TooBig` return, and finally the accumulated total against
`Limit.EMBED_TOTAL`. -/
def Embed.validate (e : Embed) : WhResult Nat :=
  let author := e.authorLen
  if author > Limit.AUTHOR_NAME then
    .err (.TooBig "author" author Limit.AUTHOR_NAME)
  else
    let title := e.titleLen
    if title > Limit.TITLE then
      .err (.TooBig "title" title Limit.TITLE)
    else
      let desc := e.descriptionLen
      if desc > Limit.DESCRIPTION then
        .err (.TooBig "description" desc Limit.DESCRIPTION)
      else
        let footer := e.footerLen
        if footer > Limit.FOOTER_TEXT then
          .err (.TooBig "footer" footer Limit.FOOTER_TEXT)
        else
          match Embed.validateFields e.fields (author + title + desc + footer) with
          | .err er => .err er
          | .ok total =>
            if total > Limit.EMBED_TOTAL then
              .err (.TooBig "embed" total Limit.EMBED_TOTAL)
            else
              .ok total

/-- Spec-side description of the per-field checks: for each field in
insertion order, its name against `Limit.FIELD_NAME` then its value against
`Limit.FIELD_VALUE`, as `(component, size, ceiling)` triples. -/
def fieldChecks : List EmbedField → List (String × Nat × Nat)
  | [] => []
  | f :: rest =>
    ("field name", f.name.utf8ByteSize, Limit.FIELD_NAME) ::
    ("field value", f.value.utf8ByteSize, Limit.FIELD_VALUE) ::
    fieldChecks rest

/-- Spec-side list of component checks of an `Embed` in the fixed order
author, title, description, footer, then each field's name and value in
insertion order. -/
def Embed.componentChecks (e : Embed) : List (String × Nat × Nat) :=
  ("author", e.authorLen, Limit.AUTHOR_NAME) ::
  ("title", e.titleLen, Limit.TITLE) ::
  ("description", e.descriptionLen, Limit.DESCRIPTION) ::
  ("footer", e.footerLen, Limit.FOOTER_TEXT) ::
  fieldChecks e.fields

/-- The first check in the list whose size exceeds its ceiling, if any. -/
def firstOversized : List (String × Nat × Nat) → Option (String × Nat × Nat)
  | [] => none
  | c :: rest => if c.2.1 > c.2.2 then some c else firstOversized rest

/-- Sum of the sizes in a check list. -/
def checksTotal (l : List (String × Nat × Nat)) : Nat :=
  (l.map (fun c => c.2.1)).sum

/-- Spec-side restatement of embed validation: report the first component
exceeding its individual ceiling, otherwise the sum of all component
lengths, provided it does not exceed the 6000 aggregate ceiling. -/
def Embed.validateSpec (e : Embed) : WhResult Nat :=
  match firstOversized e.componentChecks with
  | some c => .err (.TooBig c.1 c.2.1 c.2.2)
  | none =>
    let total := checksTotal e.componentChecks
    if total > Limit.EMBED_TOTAL then
      .err (.TooBig "embed" total Limit.EMBED_TOTAL)
    else
      .ok total

/-- `str::strip_prefix('#')` as used by `Embed::color`: drop one leading
`'#'` when present, otherwise return the string unchanged. -/
def stripHash (s : String) : String :=
  match s.data with
  | '#' :: rest => String.mk rest
  | _ => s

/-- Value of a single hexadecimal digit, as accepted by
`u32::from_str_radix(_, 16)`. -/
def hexDigit (c : Char) : Option Nat :=
  if '0' ≤ c ∧ c ≤ '9' then some (c.toNat - '0'.toNat)
  else if 'a' ≤ c ∧ c ≤ 'f' then some (c.toNat - 'a'.toNat + 10)
  else if 'A' ≤ c ∧ c ≤ 'F' then some (c.toNat - 'A'.toNat + 10)
  else none

/-- Digit-accumulation loop of `u32::from_str_radix(_, 16)`: any non-digit
or any overflow past `u32::MAX` is an error. -/
def parseHexLoop : List Char → Nat → Option Nat
  | [], acc => some acc
  | c :: rest, acc =>
    match hexDigit c with
    | some d =>
      let acc2 := acc * 16 + d
      if acc2 < 2 ^ 32 then parseHexLoop rest acc2 else none
    | none => none

/-- `u32::from_str_radix(s, 16)`: an empty digit sequence is an error, one
leading `'+'` is accepted (`'-'` is not, `u32` being unsigned), then the
digits are accumulated with overflow checking. -/
def u32FromStrRadix16 (s : String) : Option Nat :=
  match s.data with
  | [] => none
  | '+' :: rest =>
    match rest with
    | [] => none
    | _ => parseHexLoop rest 0
  | cs => parseHexLoop cs 0

/-- `Embed::color` from `embed.rs`: on the empty string return unchanged;
otherwise drop one leading `'#'`, parse the remainder as a base-16 `u32`,
and on success store it — a parse failure leaves the embed unchanged. -/
def Embed.setColor (e : Embed) (color : String) : Embed :=
  if color.data = [] then e
  else
    let color_hex := stripHash color
    match u32FromStrRadix16 color_hex with
    | some value => { e with color := some value }
    | none => e

/-- `Embed::title` setter from `embed.rs`. -/
def Embed.setTitle (e : Embed) (title : String) : Embed :=
  { e with title := some title }

/-- `Embed::description` setter from `embed.rs`. -/
def Embed.setDescription (e : Embed) (description : String) : Embed :=
  { e with description := some description }

/-- `Embed::url` setter from `embed.rs`. -/
def Embed.setUrl (e : Embed) (url : String) : Embed :=
  { e with url := some url }

/-- `Embed::timestamp` setter from `embed.rs`. -/
def Embed.setTimestamp (e : Embed) (timestamp : String) : Embed :=
  { e with timestamp := some timestamp }

/-- `Embed::footer` setter from `embed.rs`. -/
def Embed.setFooter (e : Embed) (text : String)
    (icon_url proxy_icon_url : Option String) : Embed :=
  { e with footer := some ⟨text, icon_url, proxy_icon_url⟩ }

/-- `Embed::image` setter from `embed.rs`. -/
def Embed.setImage (e : Embed) (url proxy_url : Option String)
    (height width : Option Nat) : Embed :=
  { e with image := some ⟨url, proxy_url, height, width⟩ }

/-- `Embed::thumbnail` setter from `embed.rs`. -/
def Embed.setThumbnail (e : Embed) (url proxy_url : Option String)
    (height width : Option Nat) : Embed :=
  { e with thumbnail := some ⟨url, proxy_url, height, width⟩ }

/-- `Embed::video` setter from `embed.rs`. -/
def Embed.setVideo (e : Embed) (url proxy_url : Option String)
    (height width : Option Nat) : Embed :=
  { e with video := some ⟨url, proxy_url, height, width⟩ }

/-- `Embed::provider` setter from `embed.rs`. -/
def Embed.setProvider (e : Embed) (name url : Option String) : Embed :=
  { e with provider := some ⟨name, url⟩ }

/-- `Embed::author` setter from `embed.rs`. -/
def Embed.setAuthor (e : Embed) (name : String)
    (url icon_url proxy_icon_url : Option String) : Embed :=
  { e with author := some ⟨name, url, icon_url, proxy_icon_url⟩ }

/-- `Embed::field` from `embed.rs`: appends the new field unconditionally,
regardless of the current field count. -/
def Embed.field (e : Embed) (name value : String) (inline : Option Bool) : Embed :=
  { e with fields := e.fields ++ [⟨name, value, inline⟩] }

/-- `Message` from `message.rs`: the response model deserialized from the
API (`r#type` is rendered `type_`). -/
structure Message where
  id : String
  channel_id : String
  content : String
  timestamp : String
  edited_timestamp : Option String
  tts : Bool
  mention_everyone : Bool
  embeds : List Embed
  pinned : Bool
  webhook_id : String
  type_ : Nat
deriving DecidableEq

/-- `MessageBuilder` from `message.rs`: the outbound payload. -/
structure MessageBuilder where
  username : Option String
  content : Option String
  tts : Option Bool
  embeds : List Embed
deriving DecidableEq

/-- `MessageBuilder::new` from `message.rs`. -/
def MessageBuilder.new : MessageBuilder where
  username := none
  content := none
  tts := none
  embeds := []

/-- Length used by `MessageBuilder::validate` for an optional string:
`value.len()` when present, `0` (no check can fail) otherwise. -/
def strOptLen : Option String → Nat
  | some v => v.utf8ByteSize
  | none => 0

/-- The embed loop of `MessageBuilder::validate`: validate every embed in
order, accumulating the returned totals and short-circuiting on the first
error. -/
def MessageBuilder.embedsLoop : List Embed → Nat → WhResult Nat
  | [], total => .ok total
  | e :: rest, total =>
    match e.validate with
    | .ok value => MessageBuilder.embedsLoop rest (total + value)
    | .err er => .err er

/-- `MessageBuilder::validate` from `message.rs`: username against
`Limit.USERNAME`, then content against `Limit.CONTENT`, then every embed in
order summing their totals, then the sum against `Limit.EMBED_TOTAL`,
short-circuiting on the first failure. -/
def MessageBuilder.validate (m : MessageBuilder) : WhResult Nat :=
  let u := strOptLen m.username
  if u > Limit.USERNAME then
    .err (.TooBig "username" u Limit.USERNAME)
  else
    let c := strOptLen m.content
    if c > Limit.CONTENT then
      .err (.TooBig "content" c Limit.CONTENT)
    else
      match MessageBuilder.embedsLoop m.embeds 0 with
      | .err er => .err er
      | .ok total =>
        if total > Limit.EMBED_TOTAL then
          .err (.TooBig "embed" total Limit.EMBED_TOTAL)
        else
          .ok total

/-- Spec-side embed pass: validate each embed in order, collecting each
embed's returned total, short-circuiting on the first error. -/
def embedTotals : List Embed → WhResult (List Nat)
  | [] => .ok []
  | e :: rest =>
    match e.validate with
    | .err er => .err er
    | .ok n =>
      match embedTotals rest with
      | .err er => .err er
      | .ok ns => .ok (n :: ns)

/-- Spec-side restatement of message validation: username ceiling, content
ceiling, each embed in order, then the sum of the embeds' totals against
the aggregate ceiling. -/
def MessageBuilder.validateSpec (m : MessageBuilder) : WhResult Nat :=
  let u := strOptLen m.username
  if u > Limit.USERNAME then
    .err (.TooBig "username" u Limit.USERNAME)
  else
    let c := strOptLen m.content
    if c > Limit.CONTENT then
      .err (.TooBig "content" c Limit.CONTENT)
    else
      match embedTotals m.embeds with
      | .err er => .err er
      | .ok ns =>
        if ns.sum > Limit.EMBED_TOTAL then
          .err (.TooBig "embed" ns.sum Limit.EMBED_TOTAL)
        else
          .ok ns.sum

/-- `MessageBuilder::username` from `message.rs`: assigns the username into
the builder first, then reports `TooBig` when it exceeds `Limit.USERNAME`.
The value stays stored even on the error path. -/
def MessageBuilder.setUsername (m : MessageBuilder) (username : String) :
    MessageBuilder × WhResult Unit :=
  let m2 := { m with username := some username }
  if username.utf8ByteSize > Limit.USERNAME then
    (m2, .err (.TooBig "username" username.utf8ByteSize Limit.USERNAME))
  else
    (m2, .ok ())

/-- `MessageBuilder::content` from `message.rs`: assigns the content into
the builder first, then reports `TooBig` when it exceeds `Limit.CONTENT`.
The value stays stored even on the error path. -/
def MessageBuilder.setContent (m : MessageBuilder) (content : String) :
    MessageBuilder × WhResult Unit :=
  let m2 := { m with content := some content }
  if content.utf8ByteSize > Limit.CONTENT then
    (m2, .err (.TooBig "content" content.utf8ByteSize Limit.CONTENT))
  else
    (m2, .ok ())

/-- `MessageBuilder::tts` from `message.rs`. -/
def MessageBuilder.setTts (m : MessageBuilder) (tts : Bool) : MessageBuilder :=
  { m with tts := some tts }

/-- `MessageBuilder::embed` from `message.rs`: only when the sequence holds
fewer than `Limit.EMBEDS` embeds, a fresh embed is created, the supplied
mutation is applied to it, and it is pushed; otherwise nothing changes. -/
def MessageBuilder.embed (m : MessageBuilder) (func : Embed → Embed) : MessageBuilder :=
  if m.embeds.length < Limit.EMBEDS then
    { m with embeds := m.embeds ++ [func Embed.new] }
  else
    m

/-- `MessageBuilder::from` from `message.rs`: starts from a new builder,
calls `content` with the response message's content discarding its result
(`.ok()`), then copies the response's embed sequence verbatim. -/
def MessageBuilder.fromMessage (message : Message) : MessageBuilder :=
  let builder := MessageBuilder.new
  let builder := (builder.setContent message.content).1
  { builder with embeds := message.embeds }

/-- One step of the fluent builder interface, for stating invariants over
arbitrary sequences of builder operations. -/
inductive BuilderOp where
  | username (u : String)
  | content (c : String)
  | tts (b : Bool)
  | embed (func : Embed → Embed)

/-- Apply one builder operation (results of the fallible setters are
discarded, as a chaining caller does with `.ok()`). -/
def applyOp (op : BuilderOp) (m : MessageBuilder) : MessageBuilder :=
  match op with
  | .username u => (m.setUsername u).1
  | .content c => (m.setContent c).1
  | .tts b => m.setTts b
  | .embed func => m.embed func

/-- Apply a sequence of builder operations in order. -/
def applyOps (ops : List BuilderOp) (m : MessageBuilder) : MessageBuilder :=
  match ops with
  | [] => m
  | op :: rest => applyOps rest (applyOp op m)

/-- HTTP methods used by the crate (`hyper::Method`). -/
inductive Method where
  | GET
  | POST
  | PATCH
  | DELETE
deriving DecidableEq

/-- `ROOT_URI` from `client.rs`. -/
def ROOT_URI : String := "https://discord.com/api/v10/webhooks"

/-- Outcome of one HTTP exchange, as observed by `Client::send`: the
status code plus either the fully-read body bytes or a body-read failure
(`hyper::body::to_bytes` erring). -/
structure HttpResponse where
  status : Nat
  bodyBytes : Option (List Nat)
deriving DecidableEq

/-- The external transport: maps an issued request (method, full URL,
body) to `none` on a transport-level failure, or to the response. -/
def Transport : Type := Method → String → String → Option HttpResponse

/-- The external byte decoder (`std::str::from_utf8`): `none` when the
bytes are not valid UTF-8 text. -/
def Utf8Decode : Type := List Nat → Option String

/-- `Client` from `client.rs`: the authenticated endpoint (id + token). -/
structure Client where
  id : String
  token : String
deriving DecidableEq

/-- `Client::url` from `client.rs`: the base endpoint. -/
def Client.url (c : Client) : String :=
  ROOT_URI ++ "/" ++ c.id ++ "/" ++ c.token

/-- `Client::send` from `client.rs`: issues one request to
`base_url + endpoint` and classifies the response — transport failure or
body-decoding failure to `Unknown`, HTTP 200 to `ok` with the body text,
HTTP 204 to `NoContent`, any other status to `BadStatus` carrying the
numeric status code. -/
def Client.send (c : Client) (utf8 : Utf8Decode) (transport : Transport)
    (method : Method) (endpoint : String) (body : String) : WhResult String :=
  let url := c.url ++ endpoint
  match transport method url body with
  | none => .err (.Unknown "request to API")
  | some resp =>
    if resp.status = 200 then
      match resp.bodyBytes with
      | none => .err (.Unknown "unable to convert http body")
      | some bytes =>
        match utf8 bytes with
        | some data => .ok data
        | none => .err (.Unknown "unable to convert to json")
    else if resp.status = 204 then
      .err .NoContent
    else
      .err (.BadStatus ("Status Code: " ++ toString resp.status))

/-- `MessageAPI` from `message.rs`: message operations over a client. -/
structure MessageAPI where
  client : Client
deriving DecidableEq

/-- The URL suffix built by `MessageAPI::create`: `?wait=true`, with
`&thread_id=<id>` appended exactly when a thread id is supplied. -/
def createUrl (thread_id : Option String) : String :=
  let url := "?wait=true"
  match thread_id with
  | some value => url ++ "&thread_id=" ++ value
  | none => url

/-- `MessageAPI::create` from `message.rs`: validates the message first,
returning its error without touching the transport; on success issues a
POST with the serialized message, then deserializes the response body,
reporting `BadParse` on schema mismatch. `serialize` and `parseMessage`
stand for the external `serde_json` capabilities. -/
def MessageAPI.create (api : MessageAPI) (utf8 : Utf8Decode)
    (transport : Transport) (serialize : MessageBuilder → String)
    (parseMessage : String → Option Message)
    (message : MessageBuilder) (thread_id : Option String) : WhResult Message :=
  match message.validate with
  | .err er => .err er
  | .ok _ =>
    let url := createUrl thread_id
    let body := serialize message
    match api.client.send utf8 transport .POST url body with
    | .ok value =>
      match parseMessage value with
      | some resp => .ok resp
      | none => .err (.BadParse "create response")
    | .err er => .err er

/-- `MessageAPI::delete` from `message.rs`: issues `DELETE /messages/<id>`
with an empty body; success or the transport's `NoContent` error both
become `ok ()`, every other error propagates unchanged. -/
def MessageAPI.delete (api : MessageAPI) (utf8 : Utf8Decode)
    (transport : Transport) (id : String) : WhResult Unit :=
  let url := "/messages/" ++ id
  match api.client.send utf8 transport .DELETE url "" with
  | .ok _ => .ok ()
  | .err er =>
    match er with
    | .NoContent => .ok ()
    | _ => .err er

/-- `Webhook` from `webhook.rs` (id + token). -/
structure Webhook where
  id : String
  token : String
deriving DecidableEq

/-- `Webhook::url` from `webhook.rs`. -/
def Webhook.url (w : Webhook) : String :=
  ROOT_URI ++ "/" ++ w.id ++ "/" ++ w.token

/-- `Webhook::send` from `webhook.rs`: same response classification as
`Client::send`, the optional body (already serialized here) defaulting to
the empty string. -/
def Webhook.send (w : Webhook) (utf8 : Utf8Decode) (transport : Transport)
    (method : Method) (url : String) (body : Option String) : WhResult String :=
  let body_str :=
    match body with
    | some value => value
    | none => ""
  match transport method url body_str with
  | none => .err (.Unknown "request to API")
  | some resp =>
    if resp.status = 200 then
      match resp.bodyBytes with
      | none => .err (.Unknown "unable to convert http body")
      | some bytes =>
        match utf8 bytes with
        | some data => .ok data
        | none => .err (.Unknown "unable to convert to json")
    else if resp.status = 204 then
      .err .NoContent
    else
      .err (.BadStatus ("Status Code: " ++ toString resp.status))

/-- `Webhook::delete` from `webhook.rs`: issues
`DELETE <base>/messages/<id>` with no body; success or `NoContent` become
`ok ()`, every other error propagates unchanged. -/
def Webhook.delete (w : Webhook) (utf8 : Utf8Decode) (transport : Transport)
    (id : String) : WhResult Unit :=
  let url := w.url ++ "/messages/" ++ id
  match w.send utf8 transport .DELETE url none with
  | .ok _ => .ok ()
  | .err er =>
    match er with
    | .NoContent => .ok ()
    | _ => .err er

/-- Split a character list on `'/'`, keeping empty segments, as Rust's
`str::split('/')` does. -/
def splitSlashList : List Char → List String
  | [] => [""]
  | '/' :: rest => "" :: splitSlashList rest
  | c :: rest =>
    match splitSlashList rest with
    | s :: ss => (String.mk (c :: s.data)) :: ss
    | [] => [String.mk [c]]

/-- Split a string on `'/'` into its segments. -/
def splitSlash (s : String) : List String :=
  splitSlashList s.data

/-- Modelled from the spec: `from_url` is absent from the sources under
`src/` (`lib.rs` re-exports a `WebhookApi` whose definition is missing).
Per the spec it splits the URL on `/`, reports a parse error when there are
fewer than 7 total segments, and otherwise interprets the last two segments
as `resource_id` and `secret_token`. -/
def fromUrl (url : String) : WhResult (String × String) :=
  let parts := splitSlash url
  if parts.length < 7 then
    .err (.BadParse "webhook url")
  else
    match parts.reverse with
    | secret_token :: resource_id :: _ => .ok (resource_id, secret_token)
    | _ => .err (.BadParse "webhook url")

/-- An ASCII string of `n` repetitions of `'a'` (so its Rust `len()` — its
UTF-8 byte size — is `n`). -/
def mkA (n : Nat) : String :=
  String.mk (List.replicate n 'a')

/-- An embed holding 26 empty-named, empty-valued fields: one more field
than `Limit.FIELDS` allows, with every length check trivially satisfied. -/
def embed26 : Embed :=
  { Embed.new with fields := List.replicate 26 ⟨"", "", none⟩ }

/-- A response message carrying 11 embeds — one more than `Limit.EMBEDS`. -/
def msg11 : Message where
  id := "90"
  channel_id := "77"
  content := "hello"
  timestamp := "2023-01-01T00:00:00Z"
  edited_timestamp := none
  tts := false
  mention_everyone := false
  embeds := List.replicate 11 Embed.new
  pinned := false
  webhook_id := "55"
  type_ := 0

/-- The scenario builder: username `"Bot"`, content `"hi"`, no embeds. -/
def msgBot : MessageBuilder :=
  ((MessageBuilder.new.setUsername "Bot").1.setContent "hi").1

/-- A builder whose embed sequence already holds exactly 10 embeds. -/
def mb10 : MessageBuilder :=
  { MessageBuilder.new with embeds := List.replicate 10 Embed.new }

/-- A builder with an 81-byte username: one byte over `Limit.USERNAME`. -/
def mbBadUser : MessageBuilder :=
  { MessageBuilder.new with username := some (mkA 81) }

/-- A response message with an empty embed sequence. -/
def msgNoEmbeds : Message :=
  { msg11 with embeds := [] }

/-- A concrete byte decoder for witnesses: every body reads as `"ok"`. -/
def utf8Const : Utf8Decode := fun _ => some "ok"

/-- A concrete transport for witnesses: every request gets HTTP 200 with
an empty body. -/
def tr200 : Transport := fun _ _ _ => some ⟨200, some []⟩

/-- A concrete transport for witnesses: every request gets HTTP 204. -/
def tr204 : Transport := fun _ _ _ => some ⟨204, none⟩

/-- A concrete transport for witnesses: every request gets HTTP 404. -/
def tr404 : Transport := fun _ _ _ => some ⟨404, none⟩

/-- A concrete serializer for witnesses. -/
def serialize0 : MessageBuilder → String := fun _ => ""

/-- A concrete response parser for witnesses: nothing parses. -/
def parse0 : String → Option Message := fun _ => none

/-! ## Helper lemmas -/

theorem checksTotal_cons (c : String × Nat × Nat) (l : List (String × Nat × Nat)) :
    checksTotal (c :: l) = c.2.1 + checksTotal l := by
  simp [checksTotal]

theorem validateFields_eq (fs : List EmbedField) (acc : Nat) :
    Embed.validateFields fs acc =
      match firstOversized (fieldChecks fs) with
      | some c => .err (.TooBig c.1 c.2.1 c.2.2)
      | none => .ok (acc + checksTotal (fieldChecks fs)) := by
  induction fs generalizing acc with
  | nil => simp [Embed.validateFields, fieldChecks, firstOversized, checksTotal]
  | cons f rest ih =>
    simp only [Embed.validateFields, fieldChecks, firstOversized]
    by_cases h1 : f.name.utf8ByteSize > Limit.FIELD_NAME
    · simp [h1]
    · simp only [h1, if_false]
      by_cases h2 : f.value.utf8ByteSize > Limit.FIELD_VALUE
      · simp [h2]
      · simp only [h2, if_false]
        rw [ih]
        cases hfo : firstOversized (fieldChecks rest) with
        | none => simp [checksTotal_cons]; omega
        | some c => simp

theorem embedsLoop_eq (es : List Embed) (acc : Nat) :
    MessageBuilder.embedsLoop es acc =
      match embedTotals es with
      | .err er => .err er
      | .ok ns => .ok (acc + ns.sum) := by
  induction es generalizing acc with
  | nil => simp [MessageBuilder.embedsLoop, embedTotals]
  | cons e rest ih =>
    simp only [MessageBuilder.embedsLoop, embedTotals]
    cases e.validate with
    | err er => simp
    | ok n =>
      simp only []
      rw [ih]
      cases embedTotals rest with
      | err er => simp
      | ok ns => simp only [List.sum_cons]; congr 1; omega

theorem mkA_size (n : Nat) : (mkA n).utf8ByteSize = n := by
  unfold mkA
  induction n with
  | zero => rfl
  | succ k ih =>
    simp only [List.replicate, String.utf8ByteSize_mk, String.utf8Len_cons] at ih ⊢
    simp [ih]
    decide

theorem stripHash_hash (l : List Char) : stripHash (String.mk ('#' :: l)) = String.mk l :=
  rfl

theorem stripHash_cons_ne (c : Char) (l : List Char) (hc : c ≠ '#') :
    stripHash (String.mk (c :: l)) = String.mk (c :: l) := by
  unfold stripHash
  split
  · next rest h =>
    exact absurd (List.head_eq_of_cons_eq h) hc
  · rfl

/-! ## Claim theorems -/

/-- C1: for every `Embed`, `validate` checks the components in the fixed
order author, title, description, footer, then each field's name and value
in insertion order, then the aggregate; it reports the first component
exceeding its individual ceiling as a `TooBig` naming that component, its
size and its ceiling, and when every component passes it returns the sum of
all component lengths provided the sum does not exceed the 6000 aggregate
ceiling, otherwise the aggregate `TooBig` — i.e. `validate` agrees with the
spec-side `validateSpec` built from the ordered component-check list. -/
theorem embed_validate_first_oversized (e : Embed) : e.validate = e.validateSpec := by
  unfold Embed.validate Embed.validateSpec Embed.componentChecks
  simp only [firstOversized]
  by_cases h1 : e.authorLen > Limit.AUTHOR_NAME
  · simp [h1]
  · simp only [h1, if_false]
    by_cases h2 : e.titleLen > Limit.TITLE
    · simp [h2]
    · simp only [h2, if_false]
      by_cases h3 : e.descriptionLen > Limit.DESCRIPTION
      · simp [h3]
      · simp only [h3, if_false]
        by_cases h4 : e.footerLen > Limit.FOOTER_TEXT
        · simp [h4]
        · simp only [h4, if_false]
          rw [validateFields_eq]
          cases hfo : firstOversized (fieldChecks e.fields) with
          | none =>
            have h : e.authorLen + e.titleLen + e.descriptionLen + e.footerLen +
                checksTotal (fieldChecks e.fields)
                = e.authorLen + (e.titleLen + (e.descriptionLen + (e.footerLen +
                  checksTotal (fieldChecks e.fields)))) := by omega
            simp only [checksTotal_cons]
            rw [h]
          | some c => simp

/-- C2 counterexample: `embed26` holds 26 fields — more than
`Limit.FIELDS` — yet `validate` accepts it, so `validate` does not reject
every `Embed` whose field sequence holds more than 25 fields. -/
theorem embed26_validates_despite_26_fields :
    Limit.FIELDS < embed26.fields.length ∧ embed26.validate = .ok 0 := by
  decide

/-- C2 (amended): `field` appends a field unconditionally regardless of the
current count, but `validate` never checks the field count against the
25-fields ceiling — an `Embed` holding more than 25 fields passes
`validate` whenever its individual and aggregate length checks pass. -/
theorem field_appends_unconditionally :
    (∀ (e : Embed) (name value : String) (inl : Option Bool),
      (e.field name value inl).fields = e.fields ++ [⟨name, value, inl⟩])
    ∧ (Limit.FIELDS < embed26.fields.length ∧ embed26.validate = .ok 0) := by
  refine ⟨fun e name value inl => rfl, by decide⟩

/-- C3: `MessageBuilder.validate` checks username against 80, then content
against 2000 (2000-byte content passes, 2001 fails with
`TooBig("content", 2001, 2000)`), then validates each embed in order
summing their returned totals, then checks the sum against 6000,
short-circuiting on the first failure (agreement with `validateSpec`); a
message with no embeds has embed total 0, so it succeeds whenever its
username and content checks pass — content length being checked
independently of the embed total. -/
theorem message_validate_order_and_examples :
    (∀ m : MessageBuilder, m.validate = m.validateSpec)
    ∧ ({ MessageBuilder.new with content := some (mkA 2000) } : MessageBuilder).validate = .ok 0
    ∧ ({ MessageBuilder.new with content := some (mkA 2001) } : MessageBuilder).validate
        = .err (.TooBig "content" 2001 2000)
    ∧ msgBot.validate = .ok 0
    ∧ (∀ m : MessageBuilder, m.embeds = [] →
        m.validate = .ok 0 ∨
        ∃ nm s l, m.validate = .err (.TooBig nm s l) ∧ (nm = "username" ∨ nm = "content")) := by
  refine ⟨?_, ?_, ?_, ?_, ?_⟩
  · intro m
    unfold MessageBuilder.validate MessageBuilder.validateSpec
    by_cases h1 : strOptLen m.username > Limit.USERNAME
    · simp [h1]
    · simp only [h1, if_false]
      by_cases h2 : strOptLen m.content > Limit.CONTENT
      · simp [h2]
      · simp only [h2, if_false]
        rw [embedsLoop_eq]
        cases embedTotals m.embeds with
        | err er => simp
        | ok ns => simp
  · simp [MessageBuilder.validate, MessageBuilder.new, strOptLen, mkA_size,
      Limit.USERNAME, Limit.CONTENT, Limit.EMBED_TOTAL, MessageBuilder.embedsLoop]
  · simp [MessageBuilder.validate, MessageBuilder.new, strOptLen, mkA_size,
      Limit.USERNAME, Limit.CONTENT, Limit.EMBED_TOTAL, MessageBuilder.embedsLoop]
  · decide
  · intro m hm
    by_cases h1 : strOptLen m.username > Limit.USERNAME
    · refine Or.inr ⟨"username", strOptLen m.username, Limit.USERNAME, ?_, Or.inl rfl⟩
      simp [MessageBuilder.validate, h1]
    · by_cases h2 : strOptLen m.content > Limit.CONTENT
      · refine Or.inr ⟨"content", strOptLen m.content, Limit.CONTENT, ?_, Or.inr rfl⟩
        simp [MessageBuilder.validate, h1, h2]
      · refine Or.inl ?_
        simp [MessageBuilder.validate, h1, h2, hm, MessageBuilder.embedsLoop,
          Limit.EMBED_TOTAL]

/-- C3 witness: the no-embeds clause applied to the empty builder. -/
theorem message_validate_order_and_examples_witness :
    MessageBuilder.new.validate = .ok 0 ∨
    ∃ nm s l, MessageBuilder.new.validate = .err (.TooBig nm s l) ∧
      (nm = "username" ∨ nm = "content") :=
  message_validate_order_and_examples.2.2.2.2 MessageBuilder.new rfl

/-- C4 counterexample: `MessageBuilder::from` copies the response's embed
sequence verbatim, so a builder produced by `from` on a response message
holding 11 embeds holds 11 embeds — more than `Limit.EMBEDS`. -/
theorem fromMessage_eleven_embeds :
    Limit.EMBEDS < (MessageBuilder.fromMessage msg11).embeds.length ∧
    (MessageBuilder.fromMessage msg11).embeds.length = 11 := by
  decide

/-- C4 (amended): a builder produced by `new`, or by `from` on a response
message holding at most 10 embeds, holds at most 10 embeds after any
sequence of builder operations; calling `embed` on a builder already
holding 10 (or more) embeds returns it unchanged — no error, and no trace
of the discarded embed's mutations. -/
theorem embeds_capped_at_ten :
    MessageBuilder.new.embeds.length ≤ Limit.EMBEDS
    ∧ (∀ msg : Message, msg.embeds.length ≤ Limit.EMBEDS →
        (MessageBuilder.fromMessage msg).embeds.length ≤ Limit.EMBEDS)
    ∧ (∀ (ops : List BuilderOp) (m : MessageBuilder), m.embeds.length ≤ Limit.EMBEDS →
        (applyOps ops m).embeds.length ≤ Limit.EMBEDS)
    ∧ (∀ (m : MessageBuilder) (func : Embed → Embed), Limit.EMBEDS ≤ m.embeds.length →
        m.embed func = m) := by
  have hop : ∀ (op : BuilderOp) (m : MessageBuilder), m.embeds.length ≤ Limit.EMBEDS →
      (applyOp op m).embeds.length ≤ Limit.EMBEDS := by
    intro op m hm
    cases op with
    | username u =>
      have : ((m.setUsername u).1).embeds = m.embeds := by
        unfold MessageBuilder.setUsername
        split <;> rfl
      simpa [applyOp, this] using hm
    | content c =>
      have : ((m.setContent c).1).embeds = m.embeds := by
        unfold MessageBuilder.setContent
        split <;> rfl
      simpa [applyOp, this] using hm
    | tts b => simpa [applyOp, MessageBuilder.setTts] using hm
    | embed func =>
      simp only [applyOp, MessageBuilder.embed]
      split
      · next hlt => simp; omega
      · exact hm
  refine ⟨by decide, ?_, ?_, ?_⟩
  · intro msg h
    simpa [MessageBuilder.fromMessage, MessageBuilder.setContent] using h
  · intro ops
    induction ops with
    | nil => intro m hm; exact hm
    | cons op rest ih =>
      intro m hm
      exact ih (applyOp op m) (hop op m hm)
  · intro m func h
    simp only [MessageBuilder.embed]
    rw [if_neg (by omega)]

/-- C4 witness: the operation-sequence bound and the silent-cap clause at
concrete inputs — `mb10` holds exactly 10 embeds and `embed` on it is the
identity. -/
theorem embeds_capped_at_ten_witness :
    (applyOps [BuilderOp.embed (fun e => e.setTitle "x")] mb10).embeds.length ≤ Limit.EMBEDS
    ∧ mb10.embed (fun e => e.setTitle "x") = mb10
    ∧ (MessageBuilder.fromMessage msgNoEmbeds).embeds.length ≤ Limit.EMBEDS :=
  ⟨embeds_capped_at_ten.2.2.1 [BuilderOp.embed (fun e => e.setTitle "x")] mb10 (by decide),
   embeds_capped_at_ten.2.2.2 mb10 (fun e => e.setTitle "x") (by decide),
   embeds_capped_at_ten.2.1 msgNoEmbeds (by decide)⟩

/-- C5: `Client::send` classifies the exchange — transport-level failure
yields `Unknown`; HTTP 200 yields `ok` with the body decoded as text, or
`Unknown` when the body cannot be read or decoded; HTTP 204 yields
`NoContent`; any other status yields `BadStatus` carrying the numeric
status code. -/
theorem send_classifies_responses
    (c : Client) (utf8 : Utf8Decode) (tr : Transport) (method : Method)
    (endpoint body : String) :
    (tr method (c.url ++ endpoint) body = none →
      c.send utf8 tr method endpoint body = .err (.Unknown "request to API"))
    ∧ (∀ resp : HttpResponse, tr method (c.url ++ endpoint) body = some resp →
        (resp.status = 200 → resp.bodyBytes = none →
          c.send utf8 tr method endpoint body = .err (.Unknown "unable to convert http body"))
        ∧ (∀ bytes, resp.status = 200 → resp.bodyBytes = some bytes →
            (utf8 bytes = none →
              c.send utf8 tr method endpoint body = .err (.Unknown "unable to convert to json"))
            ∧ (∀ s, utf8 bytes = some s → c.send utf8 tr method endpoint body = .ok s))
        ∧ (resp.status = 204 → c.send utf8 tr method endpoint body = .err .NoContent)
        ∧ (resp.status ≠ 200 → resp.status ≠ 204 →
            c.send utf8 tr method endpoint body =
              .err (.BadStatus ("Status Code: " ++ toString resp.status)))) := by
  constructor
  · intro h
    simp [Client.send, h]
  · intro resp hr
    refine ⟨?_, ?_, ?_, ?_⟩
    · intro h200 hb
      simp [Client.send, hr, h200, hb]
    · intro bytes h200 hb
      constructor
      · intro hu
        simp [Client.send, hr, h200, hb, hu]
      · intro s hu
        simp [Client.send, hr, h200, hb, hu]
    · intro h204
      simp [Client.send, hr, h204]
    · intro h200 h204
      simp [Client.send, hr, h200, h204]

/-- C5 witness: the classification applied to concrete transports — a 200
with decodable body, a 204, and a 404. -/
theorem send_classifies_responses_witness :
    (Client.mk "1" "2").send utf8Const tr200 .GET "/x" "" = .ok "ok"
    ∧ (Client.mk "1" "2").send utf8Const tr204 .GET "/x" "" = .err .NoContent
    ∧ (Client.mk "1" "2").send utf8Const tr404 .GET "/x" "" =
        .err (.BadStatus "Status Code: 404") :=
  ⟨(((send_classifies_responses (Client.mk "1" "2") utf8Const tr200 .GET "/x" "").2
      ⟨200, some []⟩ rfl).2.1 [] rfl rfl).2 "ok" rfl,
   ((send_classifies_responses (Client.mk "1" "2") utf8Const tr204 .GET "/x" "").2
      ⟨204, none⟩ rfl).2.2.1 rfl,
   ((send_classifies_responses (Client.mk "1" "2") utf8Const tr404 .GET "/x" "").2
      ⟨404, none⟩ rfl).2.2.2 (by decide) (by decide)⟩

/-- C6: both delete operations issue `DELETE /messages/<id>` and return
`ok ()` exactly when the transport returns success or the `NoContent`
error (HTTP 204 translated to success); every other transport error
propagates to the caller unchanged, uniformly across `MessageAPI.delete`
and `Webhook.delete`. -/
theorem delete_translates_nocontent :
    (∀ (api : MessageAPI) (utf8 : Utf8Decode) (tr : Transport) (id : String),
      (api.delete utf8 tr id = .ok () ↔
        (∃ s, api.client.send utf8 tr .DELETE ("/messages/" ++ id) "" = .ok s) ∨
        api.client.send utf8 tr .DELETE ("/messages/" ++ id) "" = .err .NoContent)
      ∧ (∀ er, er ≠ .NoContent →
          api.client.send utf8 tr .DELETE ("/messages/" ++ id) "" = .err er →
          api.delete utf8 tr id = .err er))
    ∧ (∀ (w : Webhook) (utf8 : Utf8Decode) (tr : Transport) (id : String),
      (w.delete utf8 tr id = .ok () ↔
        (∃ s, w.send utf8 tr .DELETE (w.url ++ "/messages/" ++ id) none = .ok s) ∨
        w.send utf8 tr .DELETE (w.url ++ "/messages/" ++ id) none = .err .NoContent)
      ∧ (∀ er, er ≠ .NoContent →
          w.send utf8 tr .DELETE (w.url ++ "/messages/" ++ id) none = .err er →
          w.delete utf8 tr id = .err er)) := by
  constructor
  · intro api utf8 tr id
    constructor
    · cases hs : api.client.send utf8 tr .DELETE ("/messages/" ++ id) "" with
      | ok s => simp [MessageAPI.delete, hs]
      | err er => cases er <;> simp [MessageAPI.delete, hs]
    · intro er her hs
      cases er <;> simp_all [MessageAPI.delete, hs]
  · intro w utf8 tr id
    constructor
    · cases hs : w.send utf8 tr .DELETE (w.url ++ "/messages/" ++ id) none with
      | ok s => simp [Webhook.delete, hs]
      | err er => cases er <;> simp [Webhook.delete, hs]
    · intro er her hs
      cases er <;> simp_all [Webhook.delete, hs]

/-- C6 witness: against a transport that always answers HTTP 204, both
delete operations succeed. -/
theorem delete_translates_nocontent_witness :
    (MessageAPI.mk (Client.mk "1" "2")).delete utf8Const tr204 "42" = .ok ()
    ∧ (Webhook.mk "1" "2").delete utf8Const tr204 "42" = .ok () :=
  ⟨((delete_translates_nocontent.1 (MessageAPI.mk (Client.mk "1" "2"))
      utf8Const tr204 "42").1).mpr (Or.inr (by decide)),
   ((delete_translates_nocontent.2 (Webhook.mk "1" "2")
      utf8Const tr204 "42").1).mpr (Or.inr (by decide))⟩

/-- C7: `MessageAPI.create` validates first and returns the validation
error for every transport (so no request is sent on a failing builder); on
a builder that validates, it issues a POST to `?wait=true` (with
`&thread_id=<id>` appended exactly when a thread id is supplied) carrying
the serialized message, returns the parsed response message on a successful
exchange, `BadParse` when the body does not match the response schema, and
propagates transport errors. -/
theorem create_validates_before_send
    (api : MessageAPI) (utf8 : Utf8Decode) (tr : Transport)
    (serialize : MessageBuilder → String) (parseMessage : String → Option Message)
    (m : MessageBuilder) (tid : Option String) :
    (∀ er, m.validate = .err er →
      api.create utf8 tr serialize parseMessage m tid = .err er)
    ∧ createUrl none = "?wait=true"
    ∧ (∀ v, createUrl (some v) = "?wait=true&thread_id=" ++ v)
    ∧ (∀ n, m.validate = .ok n →
        (∀ s resp, api.client.send utf8 tr .POST (createUrl tid) (serialize m) = .ok s →
          parseMessage s = some resp →
          api.create utf8 tr serialize parseMessage m tid = .ok resp)
        ∧ (∀ s, api.client.send utf8 tr .POST (createUrl tid) (serialize m) = .ok s →
            parseMessage s = none →
            api.create utf8 tr serialize parseMessage m tid = .err (.BadParse "create response"))
        ∧ (∀ er, api.client.send utf8 tr .POST (createUrl tid) (serialize m) = .err er →
            api.create utf8 tr serialize parseMessage m tid = .err er)) := by
  refine ⟨?_, rfl, fun v => rfl, ?_⟩
  · intro er hv
    simp [MessageAPI.create, hv]
  · intro n hv
    refine ⟨?_, ?_, ?_⟩
    · intro s resp hs hp
      simp [MessageAPI.create, hv, hs, hp]
    · intro s hs hp
      simp [MessageAPI.create, hv, hs, hp]
    · intro er hs
      simp [MessageAPI.create, hv, hs]

/-- C7 witness: a builder with an 81-byte username fails `create` with the
validation error under any transport; a valid builder whose 200 response
does not parse yields `BadParse`. -/
theorem create_validates_before_send_witness :
    (MessageAPI.mk (Client.mk "1" "2")).create utf8Const tr204 serialize0 parse0
      mbBadUser none = .err (.TooBig "username" 81 80)
    ∧ (MessageAPI.mk (Client.mk "1" "2")).create utf8Const tr200 serialize0 parse0
      MessageBuilder.new none = .err (.BadParse "create response") :=
  ⟨(create_validates_before_send (MessageAPI.mk (Client.mk "1" "2")) utf8Const tr204
      serialize0 parse0 mbBadUser none).1 (.TooBig "username" 81 80) (by decide),
   ((create_validates_before_send (MessageAPI.mk (Client.mk "1" "2")) utf8Const tr200
      serialize0 parse0 MessageBuilder.new none).2.2.2 0 (by decide)).2.1 "ok"
      (by decide) rfl⟩

/-- C8: the color setter stores the same integer for `"#" ++ s` as for `s`
(for any `s` not itself starting with `'#'`, hexadecimal or not — on parse
failure both leave the embed unchanged); the empty string and a non-hex
string leave a fresh embed's color unset and raise no error, and the
concrete pair `"#CBA6F7"` / `"CBA6F7"` both store `0xCBA6F7`. -/
theorem color_hash_equivalence :
    (∀ (e : Embed) (s : String), s.data.head? ≠ some '#' →
      e.setColor ("#" ++ s) = e.setColor s)
    ∧ (Embed.new.setColor "").color = none
    ∧ (Embed.new.setColor "not-hex").color = none
    ∧ (∀ e : Embed, e.setColor "" = e)
    ∧ (Embed.new.setColor "#CBA6F7").color = some 0xCBA6F7
    ∧ (Embed.new.setColor "CBA6F7").color = some 0xCBA6F7 := by
  refine ⟨?_, by decide, by decide, fun e => rfl, by decide, by decide⟩
  intro e s hs
  cases s with
  | mk d =>
    cases d with
    | nil => rfl
    | cons c rest =>
      have hc : c ≠ '#' := by
        intro h
        exact hs (by simp [h])
      show Embed.setColor e (String.mk ('#' :: c :: rest)) =
        Embed.setColor e (String.mk (c :: rest))
      unfold Embed.setColor
      rw [stripHash_hash, stripHash_cons_ne c rest hc]
      simp

/-- C8 witness: the prefix equivalence applied at `"CBA6F7"`. -/
theorem color_hash_equivalence_witness :
    Embed.new.setColor "#CBA6F7" = Embed.new.setColor "CBA6F7" :=
  color_hash_equivalence.1 Embed.new "CBA6F7" (by decide)

/-- C9 (spec-modelled): `fromUrl` splits the URL on `/`, reports a parse
error when there are fewer than 7 total segments, and otherwise yields the
last two segments as `(resource_id, secret_token)`; in particular the
webhook URL scenario succeeds and the short URL fails. -/
theorem fromUrl_last_two_segments :
    fromUrl "https://host/api/webhooks/1111/abcd" = .ok ("1111", "abcd")
    ∧ fromUrl "https://host/short" = .err (.BadParse "webhook url")
    ∧ (∀ url : String, (splitSlash url).length < 7 →
        fromUrl url = .err (.BadParse "webhook url"))
    ∧ (∀ (url secret_token resource_id : String) (rest : List String),
        ¬ (splitSlash url).length < 7 →
        (splitSlash url).reverse = secret_token :: resource_id :: rest →
        fromUrl url = .ok (resource_id, secret_token)) := by
  refine ⟨by decide, by decide, ?_, ?_⟩
  · intro url h
    simp [fromUrl, h]
  · intro url secret_token resource_id rest h hrev
    simp [fromUrl, h, hrev]

/-- C9 witness: the fewer-than-7-segments clause applied to a one-segment
URL. -/
theorem fromUrl_last_two_segments_witness :
    fromUrl "a" = .err (.BadParse "webhook url") :=
  fromUrl_last_two_segments.2.2.1 "a" (by decide)

/-- C10: `MessageBuilder::username` and `MessageBuilder::content` assign
the supplied string into the builder before checking its length, so an
over-limit value is reported as `TooBig` yet remains stored; and
`MessageBuilder::from` (which discards `content`'s result) always ends up
with the response's content and embeds stored. -/
theorem setters_assign_before_check :
    (∀ (m : MessageBuilder) (u : String), ((m.setUsername u).1).username = some u)
    ∧ (∀ (m : MessageBuilder) (u : String), Limit.USERNAME < u.utf8ByteSize →
        (m.setUsername u).2 = .err (.TooBig "username" u.utf8ByteSize Limit.USERNAME))
    ∧ (∀ (m : MessageBuilder) (c : String), ((m.setContent c).1).content = some c)
    ∧ (∀ (m : MessageBuilder) (c : String), Limit.CONTENT < c.utf8ByteSize →
        (m.setContent c).2 = .err (.TooBig "content" c.utf8ByteSize Limit.CONTENT))
    ∧ (∀ msg : Message, (MessageBuilder.fromMessage msg).content = some msg.content
        ∧ (MessageBuilder.fromMessage msg).embeds = msg.embeds) := by
  refine ⟨?_, ?_, ?_, ?_, ?_⟩
  · intro m u
    unfold MessageBuilder.setUsername
    split <;> rfl
  · intro m u h
    unfold MessageBuilder.setUsername
    rw [if_pos h]
  · intro m c
    unfold MessageBuilder.setContent
    split <;> rfl
  · intro m c h
    unfold MessageBuilder.setContent
    rw [if_pos h]
  · intro msg
    constructor
    · show ({ (MessageBuilder.new.setContent msg.content).1 with
        embeds := msg.embeds } : MessageBuilder).content = some msg.content
      have : ((MessageBuilder.new.setContent msg.content).1).content = some msg.content := by
        unfold MessageBuilder.setContent
        split <;> rfl
      simpa using this
    · rfl

/-- C10 witness: an 81-byte username is both stored and reported. -/
theorem setters_assign_before_check_witness :
    ((MessageBuilder.new.setUsername (mkA 81)).1).username = some (mkA 81)
    ∧ (MessageBuilder.new.setUsername (mkA 81)).2 = .err (.TooBig "username" 81 80) :=
  ⟨setters_assign_before_check.1 MessageBuilder.new (mkA 81),
   setters_assign_before_check.2.1 MessageBuilder.new (mkA 81) (by decide)⟩
